import Mathlib

/-!
# k8sutil: the cluster accessor of registry-creds

A shallow embedding of `k8sutil/k8sutil.go`.

* Go pointers and the `error` interface are `Option`s: `none` is `nil`.
* A Go result pair `(*T, error)` is a pair of two `Option`s, so a callee may hand back
  an object together with an error, as a Go callee can.
* The external libraries (`rest`, `clientcmd`, `kubernetes`) are parameters: records of
  state transformers over an arbitrary world `σ`, with an arbitrary error type `ε`.
  Calls into them are assumed to return.
* Every call into a library and every `logrus` call is appended to one event trace, in
  program order.
-/

namespace k8sutil

/-! ## External data (client-go), reduced to the fields used below -/

/-- The connection parameters `rest.Config`. -/
structure rest.Config where
  Host : String
  BearerToken : String
deriving DecidableEq, Repr

/-- The client set `kubernetes.Clientset`, identified by the configuration it serves. -/
structure kubernetes.Clientset where
  Host : String
deriving DecidableEq, Repr

/-- Object metadata `v1.ObjectMeta`. -/
structure v1.ObjectMeta where
  Name : String
  Namespace : String
  ResourceVersion : String
deriving DecidableEq, Repr

/-- The secret `v1.Secret`; `Data` is the key/value bundle. -/
structure v1.Secret where
  ObjectMeta : v1.ObjectMeta
  Data : List (String × String)
deriving DecidableEq, Repr

/-- The service account `v1.ServiceAccount`. -/
structure v1.ServiceAccount where
  ObjectMeta : v1.ObjectMeta
  Secrets : List String
  ImagePullSecrets : List String
deriving DecidableEq, Repr

/-- The namespace `v1.Namespace`. -/
structure v1.Namespace where
  ObjectMeta : v1.ObjectMeta
deriving DecidableEq, Repr

/-- The namespace list `v1.NamespaceList`. -/
structure v1.NamespaceList where
  Items : List v1.Namespace
deriving DecidableEq, Repr

/-- The list options `v1.ListOptions`. -/
structure v1.ListOptions where
  LabelSelector : String
  FieldSelector : String
  Watch : Bool
  ResourceVersion : String
deriving DecidableEq, Repr

/-- The zero value `v1.ListOptions{}`. -/
def v1.ListOptions.zero : v1.ListOptions := ⟨"", "", false, ""⟩

/-- A Go result pair `(*α, error)`. -/
abbrev Result (α ε : Type) : Type := Option α × Option ε

/-! ## The event trace -/

/-- One operand of a `logrus` call: a string literal or an error value. -/
inductive LogArg (ε : Type) where
  | str (s : String)
  | err (e : ε)
deriving DecidableEq, Repr

/-- Severity of a log entry. -/
inductive Level where
  | info
  | error
deriving DecidableEq, Repr

/-- A `logrus` call as the source writes it: the function and its operands. -/
inductive LogCall (ε : Type) where
  | Info (args : List (LogArg ε))
  | Infof (format : String) (args : List (LogArg ε))
  | Error (args : List (LogArg ε))
deriving DecidableEq, Repr

/-- The level `logrus` gives an entry. -/
def LogCall.level {ε : Type} : LogCall ε → Level
  | .Info _ => .info
  | .Infof _ _ => .info
  | .Error _ => .error

/-- The operands of a `logrus` call. -/
def LogCall.args {ε : Type} : LogCall ε → List (LogArg ε)
  | .Info a => a
  | .Infof _ a => a
  | .Error a => a

/-- A call into one of the external libraries, with its receiver and arguments. -/
inductive ClientCall where
  | InClusterConfig
  | BuildConfigFromFlags (masterUrl kubeconfigPath : String)
  | NewForConfig (cfg : Option rest.Config)
  | NamespacesList (cs : Option kubernetes.Clientset) (opts : v1.ListOptions)
  | SecretsGet (cs : Option kubernetes.Clientset) (ns name : String)
  | SecretsCreate (cs : Option kubernetes.Clientset) (ns : String) (s : Option v1.Secret)
  | SecretsUpdate (cs : Option kubernetes.Clientset) (ns : String) (s : Option v1.Secret)
  | ServiceAccountsGet (cs : Option kubernetes.Clientset) (ns name : String)
  | ServiceAccountsUpdate (cs : Option kubernetes.Clientset) (ns : String)
      (sa : Option v1.ServiceAccount)
deriving DecidableEq, Repr

/-- An observable step of the program. -/
inductive Event (ε : Type) where
  | call (c : ClientCall)
  | log (l : LogCall ε)
deriving DecidableEq, Repr

/-- The library calls of a trace, in order. -/
def callsOf {ε : Type} (t : List (Event ε)) : List ClientCall :=
  t.filterMap fun
    | .call c => some c
    | .log _ => none

/-- The log entries of a trace, in order. -/
def logsOf {ε : Type} (t : List (Event ε)) : List (LogCall ε) :=
  t.filterMap fun
    | .call _ => none
    | .log l => some l

/-- The state threaded through the program: the outside world and the trace so far. -/
structure Machine (σ ε : Type) where
  world : σ
  trace : List (Event ε)

/-- Run one library call on the world and record it. -/
def invoke {σ ε α : Type} (c : ClientCall) (f : σ → Result α ε × σ) (m : Machine σ ε) :
    Result α ε × Machine σ ε :=
  ((f m.world).1, ⟨(f m.world).2, m.trace ++ [Event.call c]⟩)

/-- Append one log entry. -/
def emit {σ ε : Type} (l : LogCall ε) (m : Machine σ ε) : Machine σ ε :=
  ⟨m.world, m.trace ++ [Event.log l]⟩

/-! ## The external libraries, as parameters -/

/-- What `New` calls: the two credential loaders and the client constructor. -/
structure Bootstrap (σ ε : Type) where
  InClusterConfig : σ → Result rest.Config ε × σ
  BuildConfigFromFlags : String → String → σ → Result rest.Config ε × σ
  NewForConfig : Option rest.Config → σ → Result kubernetes.Clientset ε × σ

/-- What the resource operations call on a client set. -/
structure Api (σ ε : Type) where
  NamespacesList : Option kubernetes.Clientset → v1.ListOptions → σ →
    Result v1.NamespaceList ε × σ
  SecretsGet : Option kubernetes.Clientset → String → String → σ → Result v1.Secret ε × σ
  SecretsCreate : Option kubernetes.Clientset → String → Option v1.Secret → σ →
    Result v1.Secret ε × σ
  SecretsUpdate : Option kubernetes.Clientset → String → Option v1.Secret → σ →
    Result v1.Secret ε × σ
  ServiceAccountsGet : Option kubernetes.Clientset → String → String → σ →
    Result v1.ServiceAccount ε × σ
  ServiceAccountsUpdate : Option kubernetes.Clientset → String → Option v1.ServiceAccount → σ →
    Result v1.ServiceAccount ε × σ

/-! ## The program -/

/-- The accessor `kubeImpl`. The two cache fields are never assigned by the source. -/
structure kubeImpl where
  secretsController : Option Unit := none
  secretsStore : Option Unit := none
  Clientset : Option kubernetes.Clientset
deriving DecidableEq, Repr

/-- `New(kubeCfgFile)`: choose the credential loader by `len(kubeCfgFile) == 0`, build the
client set, wrap it. -/
def New {σ ε : Type} (lib : Bootstrap σ ε) (kubeCfgFile : String) (m : Machine σ ε) :
    (Option kubeImpl × Option ε) × Machine σ ε :=
  if kubeCfgFile.utf8ByteSize == 0 then
    let m1 := emit (.Info [.str "Using InCluster k8s config"]) m
    let cfg := invoke .InClusterConfig lib.InClusterConfig m1
    match cfg.1.2 with
    | some err => ((none, some err), cfg.2)
    | none =>
      let client := invoke (.NewForConfig cfg.1.1) (lib.NewForConfig cfg.1.1) cfg.2
      match client.1.2 with
      | some err => ((none, some err), client.2)
      | none => ((some { Clientset := client.1.1 }, none), client.2)
  else
    let m1 := emit
      (.Infof "Using OutOfCluster k8s config with kubeConfigFile: %s" [.str kubeCfgFile]) m
    let cfg := invoke (.BuildConfigFromFlags "" kubeCfgFile)
      (lib.BuildConfigFromFlags "" kubeCfgFile) m1
    match cfg.1.2 with
    | some err =>
      ((none, some err), emit (.Error [.str "Got error trying to create client: ", .err err]) cfg.2)
    | none =>
      let client := invoke (.NewForConfig cfg.1.1) (lib.NewForConfig cfg.1.1) cfg.2
      match client.1.2 with
      | some err => ((none, some err), client.2)
      | none => ((some { Clientset := client.1.1 }, none), client.2)

/-- `(k *kubeImpl) GetNamespaces()`. -/
def kubeImpl.GetNamespaces {σ ε : Type} (api : Api σ ε) (k : kubeImpl) (m : Machine σ ε) :
    Result v1.NamespaceList ε × Machine σ ε :=
  let r := invoke (.NamespacesList k.Clientset v1.ListOptions.zero)
    (api.NamespacesList k.Clientset v1.ListOptions.zero) m
  match r.1.2 with
  | some err => ((none, some err), emit (.Error [.str "Error getting namespaces: ", .err err]) r.2)
  | none => ((r.1.1, none), r.2)

/-- `(k *kubeImpl) GetSecret(namespace, secretname)`. -/
def kubeImpl.GetSecret {σ ε : Type} (api : Api σ ε) (k : kubeImpl) (ns secretname : String)
    (m : Machine σ ε) : Result v1.Secret ε × Machine σ ε :=
  let r := invoke (.SecretsGet k.Clientset ns secretname)
    (api.SecretsGet k.Clientset ns secretname) m
  match r.1.2 with
  | some err => ((none, some err), emit (.Error [.str "Error getting secret: ", .err err]) r.2)
  | none => ((r.1.1, none), r.2)

/-- `(k *kubeImpl) CreateSecret(namespace, secret)`. -/
def kubeImpl.CreateSecret {σ ε : Type} (api : Api σ ε) (k : kubeImpl) (ns : String)
    (secret : Option v1.Secret) (m : Machine σ ε) : Option ε × Machine σ ε :=
  let r := invoke (.SecretsCreate k.Clientset ns secret)
    (api.SecretsCreate k.Clientset ns secret) m
  match r.1.2 with
  | some err => (some err, emit (.Error [.str "Error creating secret: ", .err err]) r.2)
  | none => (none, r.2)

/-- `(k *kubeImpl) UpdateSecret(namespace, secret)`. -/
def kubeImpl.UpdateSecret {σ ε : Type} (api : Api σ ε) (k : kubeImpl) (ns : String)
    (secret : Option v1.Secret) (m : Machine σ ε) : Option ε × Machine σ ε :=
  let r := invoke (.SecretsUpdate k.Clientset ns secret)
    (api.SecretsUpdate k.Clientset ns secret) m
  match r.1.2 with
  | some err => (some err, emit (.Error [.str "Error updating secret: ", .err err]) r.2)
  | none => (none, r.2)

/-- `(k *kubeImpl) GetServiceAccount(namespace, name)`. -/
def kubeImpl.GetServiceAccount {σ ε : Type} (api : Api σ ε) (k : kubeImpl) (ns name : String)
    (m : Machine σ ε) : Result v1.ServiceAccount ε × Machine σ ε :=
  let r := invoke (.ServiceAccountsGet k.Clientset ns name)
    (api.ServiceAccountsGet k.Clientset ns name) m
  match r.1.2 with
  | some err =>
    ((none, some err), emit (.Error [.str "Error getting service account: ", .err err]) r.2)
  | none => ((r.1.1, none), r.2)

/-- `(k *kubeImpl) UpdateServiceAccount(namespace, sa)`. -/
def kubeImpl.UpdateServiceAccount {σ ε : Type} (api : Api σ ε) (k : kubeImpl) (ns : String)
    (sa : Option v1.ServiceAccount) (m : Machine σ ε) : Option ε × Machine σ ε :=
  let r := invoke (.ServiceAccountsUpdate k.Clientset ns sa)
    (api.ServiceAccountsUpdate k.Clientset ns sa) m
  match r.1.2 with
  | some err => (some err, emit (.Error [.str "Error updating service account: ", .err err]) r.2)
  | none => (none, r.2)

/-! ## A reference cluster

The cluster behind the client, as a store keyed by (namespace, name). -/

/-- Modelled from the spec: the error classes the remote system reports (section 7);
the client library itself is not part of this repository. -/
inductive StatusReason where
  | NotFound
  | AlreadyExists
  | Conflict
  | Invalid
deriving DecidableEq, Repr

/-- Modelled from the spec: an error of the remote system, with its class and the key it
is about. -/
structure StatusError where
  Reason : StatusReason
  Namespace : String
  Name : String
deriving DecidableEq, Repr

/-- Modelled from the spec: the state of the reference cluster, one association list per
resource kind, keyed by (namespace, name) (section 3). -/
structure Cluster where
  namespaces : List v1.Namespace
  secrets : List ((String × String) × v1.Secret)
  serviceAccounts : List ((String × String) × v1.ServiceAccount)
deriving DecidableEq, Repr

/-- Replace the value stored under a key, leaving every other entry as it is. -/
def Cluster.replace {α : Type} (key : String × String) (v : α) :
    List ((String × String) × α) → List ((String × String) × α)
  | [] => []
  | kv :: rest => if kv.1 = key then (key, v) :: rest else kv :: Cluster.replace key v rest

/-- The empty object a failed call hands back next to its error. -/
def v1.Secret.zero : v1.Secret := ⟨⟨"", "", ""⟩, []⟩

/-- The empty object a failed call hands back next to its error. -/
def v1.ServiceAccount.zero : v1.ServiceAccount := ⟨⟨"", "", ""⟩, [], []⟩

/-- Modelled from the spec: the reference client over `Cluster` (section 4.1). `Get`
returns the stored value or not-found; `Create` inserts when the key is absent and reports
already-exists otherwise; `Update` reports not-found on an absent key, conflict on a
resource version other than the stored one, and replaces the stored value otherwise. A nil
object is rejected as invalid. A failed call hands back an empty object with its error. -/
def Cluster.api : Api Cluster StatusError where
  NamespacesList := fun _ _ c => ((some ⟨c.namespaces⟩, none), c)
  SecretsGet := fun _ ns name c =>
    match c.secrets.lookup (ns, name) with
    | some s => ((some s, none), c)
    | none => ((some v1.Secret.zero, some ⟨.NotFound, ns, name⟩), c)
  SecretsCreate := fun _ ns secret c =>
    match secret with
    | none => ((some v1.Secret.zero, some ⟨.Invalid, ns, ""⟩), c)
    | some s =>
      match c.secrets.lookup (ns, s.ObjectMeta.Name) with
      | some _ => ((some v1.Secret.zero, some ⟨.AlreadyExists, ns, s.ObjectMeta.Name⟩), c)
      | none => ((some s, none), { c with secrets := ((ns, s.ObjectMeta.Name), s) :: c.secrets })
  SecretsUpdate := fun _ ns secret c =>
    match secret with
    | none => ((some v1.Secret.zero, some ⟨.Invalid, ns, ""⟩), c)
    | some s =>
      match c.secrets.lookup (ns, s.ObjectMeta.Name) with
      | none => ((some v1.Secret.zero, some ⟨.NotFound, ns, s.ObjectMeta.Name⟩), c)
      | some old =>
        if old.ObjectMeta.ResourceVersion = s.ObjectMeta.ResourceVersion then
          ((some s, none),
            { c with secrets := Cluster.replace (ns, s.ObjectMeta.Name) s c.secrets })
        else ((some v1.Secret.zero, some ⟨.Conflict, ns, s.ObjectMeta.Name⟩), c)
  ServiceAccountsGet := fun _ ns name c =>
    match c.serviceAccounts.lookup (ns, name) with
    | some sa => ((some sa, none), c)
    | none => ((some v1.ServiceAccount.zero, some ⟨.NotFound, ns, name⟩), c)
  ServiceAccountsUpdate := fun _ ns account c =>
    match account with
    | none => ((some v1.ServiceAccount.zero, some ⟨.Invalid, ns, ""⟩), c)
    | some sa =>
      match c.serviceAccounts.lookup (ns, sa.ObjectMeta.Name) with
      | none => ((some v1.ServiceAccount.zero, some ⟨.NotFound, ns, sa.ObjectMeta.Name⟩), c)
      | some old =>
        if old.ObjectMeta.ResourceVersion = sa.ObjectMeta.ResourceVersion then
          ((some sa, none),
            { c with serviceAccounts :=
                Cluster.replace (ns, sa.ObjectMeta.Name) sa c.serviceAccounts })
        else ((some v1.ServiceAccount.zero, some ⟨.Conflict, ns, sa.ObjectMeta.Name⟩), c)

/-! ## Concrete environments used to evaluate the program -/

/-- A process outside any cluster with one readable kubeconfig, `/etc/kube/config`:
the in-cluster loader fails, the file loader succeeds on that path only. -/
def outsideCluster : Bootstrap Unit String where
  InClusterConfig := fun w => ((none, some "unable to load in-cluster configuration"), w)
  BuildConfigFromFlags := fun _ path w =>
    if path = "/etc/kube/config" then ((some ⟨"https://10.0.0.1:6443", "t0k3n"⟩, none), w)
    else ((none, some ("stat " ++ path ++ ": no such file or directory")), w)
  NewForConfig := fun cfg w =>
    match cfg with
    | some c => ((some ⟨c.Host⟩, none), w)
    | none => ((none, some "nil config"), w)

/-- A process inside a cluster: the in-cluster loader succeeds. -/
def insideCluster : Bootstrap Unit String where
  InClusterConfig := fun w => ((some ⟨"https://kubernetes.default.svc", "sa-token"⟩, none), w)
  BuildConfigFromFlags := fun _ path w =>
    ((none, some ("stat " ++ path ++ ": no such file or directory")), w)
  NewForConfig := fun cfg w =>
    match cfg with
    | some c => ((some ⟨c.Host⟩, none), w)
    | none => ((none, some "nil config"), w)

/-- An accessor holding a client set for the test cluster. -/
def testAccessor : kubeImpl := { Clientset := some ⟨"https://10.0.0.1:6443"⟩ }

/-- A cluster with no namespaces and no objects. -/
def emptyCluster : Cluster := ⟨[], [], []⟩

/-- The secret of the round-trip scenario: name `s1`, data `k ↦ v`. -/
def secretS1 : v1.Secret := ⟨⟨"s1", "ns1", ""⟩, [("k", "v")]⟩

/-- A service account as stored by the server, at resource version 2. -/
def accountAtV2 : v1.ServiceAccount := ⟨⟨"default", "ns1", "2"⟩, [], ["registry-creds"]⟩

/-- The caller's stale copy of the same service account, at resource version 1. -/
def accountAtV1 : v1.ServiceAccount := ⟨⟨"default", "ns1", "1"⟩, [], []⟩

/-- A cluster holding `accountAtV2`. -/
def clusterWithAccount : Cluster := ⟨[⟨⟨"ns1", "", "7"⟩⟩], [], [(("ns1", "default"), accountAtV2)]⟩

/-- A machine at the start of a run. -/
def Machine.start {σ ε : Type} (w : σ) : Machine σ ε := ⟨w, []⟩

/-! ## Specification vocabulary -/

/-- The logging contract of one operation, in the words of the specification: when the
client call `c` fails with `e`, the trace grows by that call followed by exactly one
entry, of error level, carrying `e`; when it succeeds, the log entries are as before. -/
def LogsFailureOnce {ε : Type} (clientErr : Option ε) (c : ClientCall)
    (before after : List (Event ε)) : Prop :=
  (∀ e, clientErr = some e →
    ∃ entry : LogCall ε, after = before ++ [Event.call c, Event.log entry] ∧
      entry.level = Level.error ∧ LogArg.err e ∈ entry.args) ∧
  (clientErr = none → logsOf after = logsOf before)

/-- The library calls made between two points of a run: those of the part of the later
trace that follows the earlier one. -/
def callsDuring {ε : Type} (before after : List (Event ε)) : List ClientCall :=
  callsOf (after.drop before.length)

/-- The log entries written between two points of a run. -/
def logsDuring {ε : Type} (before after : List (Event ε)) : List (LogCall ε) :=
  logsOf (after.drop before.length)

/-- The credential loader the specification selects for a config path: the in-cluster
loader for the empty path, the file loader on that path with an empty master URL
otherwise. -/
def selectedLoader {σ ε : Type} (lib : Bootstrap σ ε) (p : String) :
    σ → Result rest.Config ε × σ :=
  if p = "" then lib.InClusterConfig else lib.BuildConfigFromFlags "" p

/-- The logging contract of `New` as the specification words it: the run writes exactly
one log entry, and it is informational. -/
def LogsOneInfoEntry {σ ε : Type} (lib : Bootstrap σ ε) (p : String) (m : Machine σ ε) :
    Prop :=
  ∃ entry : LogCall ε, logsDuring m.trace (New lib p m).2.trace = [entry] ∧
    entry.level = Level.info

end k8sutil

namespace k8sutil

/-! ## Basic facts -/

/-- Go's `len(s) == 0` holds of the empty string only. -/
theorem utf8ByteSize_eq_zero_iff (s : String) : s.utf8ByteSize = 0 ↔ s = "" := by
  constructor
  · intro h
    cases s with
    | mk cs =>
      cases cs with
      | nil => rfl
      | cons c cs =>
        have hc := Char.utf8Size_pos c
        simp [String.utf8ByteSize, String.utf8ByteSize.go] at h
        omega
  · rintro rfl
    rfl

/-- The log entries of an extended trace. -/
theorem logsOf_append {ε : Type} (t u : List (Event ε)) :
    logsOf (t ++ u) = logsOf t ++ logsOf u := by
  simp [logsOf]

/-! ## The resource operations -/

/-- C3: each of the six operations hands the error of its client call to the caller as
it is: whenever the client call returns a non-nil error `e`, the operation returns `e`. -/
theorem operations_return_client_error {σ ε : Type} (api : Api σ ε) (k : kubeImpl)
    (ns name : String) (secret : Option v1.Secret) (sa : Option v1.ServiceAccount)
    (m : Machine σ ε) (e : ε) :
    ((api.NamespacesList k.Clientset v1.ListOptions.zero m.world).1.2 = some e →
      (k.GetNamespaces api m).1.2 = some e) ∧
    ((api.SecretsGet k.Clientset ns name m.world).1.2 = some e →
      (k.GetSecret api ns name m).1.2 = some e) ∧
    ((api.SecretsCreate k.Clientset ns secret m.world).1.2 = some e →
      (k.CreateSecret api ns secret m).1 = some e) ∧
    ((api.SecretsUpdate k.Clientset ns secret m.world).1.2 = some e →
      (k.UpdateSecret api ns secret m).1 = some e) ∧
    ((api.ServiceAccountsGet k.Clientset ns name m.world).1.2 = some e →
      (k.GetServiceAccount api ns name m).1.2 = some e) ∧
    ((api.ServiceAccountsUpdate k.Clientset ns sa m.world).1.2 = some e →
      (k.UpdateServiceAccount api ns sa m).1 = some e) := by
  refine ⟨?_, ?_, ?_, ?_, ?_, ?_⟩ <;> intro h
  · simp [kubeImpl.GetNamespaces, invoke, h]
  · simp [kubeImpl.GetSecret, invoke, h]
  · simp [kubeImpl.CreateSecret, invoke, h]
  · simp [kubeImpl.UpdateSecret, invoke, h]
  · simp [kubeImpl.GetServiceAccount, invoke, h]
  · simp [kubeImpl.UpdateServiceAccount, invoke, h]

/-- C3 at the stale service account: the server holds resource version 2, the caller
updates from version 1, and `UpdateServiceAccount` returns the conflict error. -/
theorem stale_update_returns_conflict :
    (Cluster.api.ServiceAccountsUpdate testAccessor.Clientset "ns1" (some accountAtV1)
        (Machine.start (ε := StatusError) clusterWithAccount).world).1.2
      = some ⟨.Conflict, "ns1", "default"⟩ ∧
    (testAccessor.UpdateServiceAccount Cluster.api "ns1" (some accountAtV1)
        (Machine.start clusterWithAccount)).1 = some ⟨.Conflict, "ns1", "default"⟩ :=
  ⟨by decide,
    (operations_return_client_error Cluster.api testAccessor "ns1" "default" none
      (some accountAtV1) (Machine.start clusterWithAccount) ⟨.Conflict, "ns1", "default"⟩).2.2.2.2.2
      (by decide)⟩

/-- C4: for each of the six operations, a failing client call is followed by exactly one
error-level log entry carrying the client's error, appended after the call and before the
return; a succeeding client call leaves the log as it was. -/
theorem operations_log_failure_once {σ ε : Type} (api : Api σ ε) (k : kubeImpl)
    (ns name : String) (secret : Option v1.Secret) (sa : Option v1.ServiceAccount)
    (m : Machine σ ε) :
    LogsFailureOnce (api.NamespacesList k.Clientset v1.ListOptions.zero m.world).1.2
      (.NamespacesList k.Clientset v1.ListOptions.zero) m.trace (k.GetNamespaces api m).2.trace ∧
    LogsFailureOnce (api.SecretsGet k.Clientset ns name m.world).1.2
      (.SecretsGet k.Clientset ns name) m.trace (k.GetSecret api ns name m).2.trace ∧
    LogsFailureOnce (api.SecretsCreate k.Clientset ns secret m.world).1.2
      (.SecretsCreate k.Clientset ns secret) m.trace (k.CreateSecret api ns secret m).2.trace ∧
    LogsFailureOnce (api.SecretsUpdate k.Clientset ns secret m.world).1.2
      (.SecretsUpdate k.Clientset ns secret) m.trace (k.UpdateSecret api ns secret m).2.trace ∧
    LogsFailureOnce (api.ServiceAccountsGet k.Clientset ns name m.world).1.2
      (.ServiceAccountsGet k.Clientset ns name) m.trace
      (k.GetServiceAccount api ns name m).2.trace ∧
    LogsFailureOnce (api.ServiceAccountsUpdate k.Clientset ns sa m.world).1.2
      (.ServiceAccountsUpdate k.Clientset ns sa) m.trace
      (k.UpdateServiceAccount api ns sa m).2.trace := by
  refine ⟨⟨?_, ?_⟩, ⟨?_, ?_⟩, ⟨?_, ?_⟩, ⟨?_, ?_⟩, ⟨?_, ?_⟩, ⟨?_, ?_⟩⟩
  · intro e h
    exact ⟨.Error [.str "Error getting namespaces: ", .err e],
      by simp [kubeImpl.GetNamespaces, invoke, emit, h], rfl, by simp [LogCall.args]⟩
  · intro h
    simp [kubeImpl.GetNamespaces, invoke, h, logsOf_append, logsOf]
  · intro e h
    exact ⟨.Error [.str "Error getting secret: ", .err e],
      by simp [kubeImpl.GetSecret, invoke, emit, h], rfl, by simp [LogCall.args]⟩
  · intro h
    simp [kubeImpl.GetSecret, invoke, h, logsOf_append, logsOf]
  · intro e h
    exact ⟨.Error [.str "Error creating secret: ", .err e],
      by simp [kubeImpl.CreateSecret, invoke, emit, h], rfl, by simp [LogCall.args]⟩
  · intro h
    simp [kubeImpl.CreateSecret, invoke, h, logsOf_append, logsOf]
  · intro e h
    exact ⟨.Error [.str "Error updating secret: ", .err e],
      by simp [kubeImpl.UpdateSecret, invoke, emit, h], rfl, by simp [LogCall.args]⟩
  · intro h
    simp [kubeImpl.UpdateSecret, invoke, h, logsOf_append, logsOf]
  · intro e h
    exact ⟨.Error [.str "Error getting service account: ", .err e],
      by simp [kubeImpl.GetServiceAccount, invoke, emit, h], rfl, by simp [LogCall.args]⟩
  · intro h
    simp [kubeImpl.GetServiceAccount, invoke, h, logsOf_append, logsOf]
  · intro e h
    exact ⟨.Error [.str "Error updating service account: ", .err e],
      by simp [kubeImpl.UpdateServiceAccount, invoke, emit, h], rfl, by simp [LogCall.args]⟩
  · intro h
    simp [kubeImpl.UpdateServiceAccount, invoke, h, logsOf_append, logsOf]

/-- C4 at a failing call: `GetSecret` of an absent secret grows an empty trace to the
client call followed by one error entry with the not-found error. -/
theorem absent_secret_logged_once :
    (testAccessor.GetSecret Cluster.api "ns1" "s1" (Machine.start emptyCluster)).2.trace =
      [Event.call (.SecretsGet testAccessor.Clientset "ns1" "s1"),
        Event.log (.Error [.str "Error getting secret: ", .err ⟨.NotFound, "ns1", "s1"⟩])] ∧
    LogsFailureOnce (some (StatusError.mk .NotFound "ns1" "s1"))
      (.SecretsGet testAccessor.Clientset "ns1" "s1") []
      (testAccessor.GetSecret Cluster.api "ns1" "s1" (Machine.start emptyCluster)).2.trace :=
  ⟨by decide,
    (operations_log_failure_once Cluster.api testAccessor "ns1" "s1" none none
      (Machine.start emptyCluster)).2.1⟩

/-- C8: when the client call of `GetNamespaces`, `GetSecret` or `GetServiceAccount`
succeeds with object `o`, the operation returns `o` itself and a nil error. -/
theorem getters_return_client_object {σ ε : Type} (api : Api σ ε) (k : kubeImpl)
    (ns name : String) (m : Machine σ ε) :
    (∀ o, (api.NamespacesList k.Clientset v1.ListOptions.zero m.world).1 = (o, none) →
      (k.GetNamespaces api m).1 = (o, none)) ∧
    (∀ o, (api.SecretsGet k.Clientset ns name m.world).1 = (o, none) →
      (k.GetSecret api ns name m).1 = (o, none)) ∧
    (∀ o, (api.ServiceAccountsGet k.Clientset ns name m.world).1 = (o, none) →
      (k.GetServiceAccount api ns name m).1 = (o, none)) := by
  refine ⟨?_, ?_, ?_⟩ <;> intro o h
  · simp [kubeImpl.GetNamespaces, invoke, h]
  · simp [kubeImpl.GetSecret, invoke, h]
  · simp [kubeImpl.GetServiceAccount, invoke, h]

/-- C8 at the cluster with zero namespaces: the client returns a list with no items, and
`GetNamespaces` returns that empty, non-nil list and no error. -/
theorem zero_namespaces_listed :
    (testAccessor.GetNamespaces Cluster.api (Machine.start emptyCluster)).1 =
      (some ⟨[]⟩, none) :=
  (getters_return_client_object Cluster.api testAccessor "" ""
    (Machine.start emptyCluster)).1 (some ⟨[]⟩) (by decide)

/-- C9: each operation issues exactly one client call, of its own kind, on the accessor's
client set and with the caller's arguments unchanged, whether that call succeeds or
fails: the recorded calls grow by that one call, and the world after the operation is the
world after that one call. -/
theorem operations_issue_one_call {σ ε : Type} (api : Api σ ε) (k : kubeImpl)
    (ns name : String) (secret : Option v1.Secret) (sa : Option v1.ServiceAccount)
    (m : Machine σ ε) :
    (callsOf (k.GetNamespaces api m).2.trace =
        callsOf m.trace ++ [.NamespacesList k.Clientset v1.ListOptions.zero] ∧
      (k.GetNamespaces api m).2.world =
        (api.NamespacesList k.Clientset v1.ListOptions.zero m.world).2) ∧
    (callsOf (k.GetSecret api ns name m).2.trace =
        callsOf m.trace ++ [.SecretsGet k.Clientset ns name] ∧
      (k.GetSecret api ns name m).2.world = (api.SecretsGet k.Clientset ns name m.world).2) ∧
    (callsOf (k.CreateSecret api ns secret m).2.trace =
        callsOf m.trace ++ [.SecretsCreate k.Clientset ns secret] ∧
      (k.CreateSecret api ns secret m).2.world =
        (api.SecretsCreate k.Clientset ns secret m.world).2) ∧
    (callsOf (k.UpdateSecret api ns secret m).2.trace =
        callsOf m.trace ++ [.SecretsUpdate k.Clientset ns secret] ∧
      (k.UpdateSecret api ns secret m).2.world =
        (api.SecretsUpdate k.Clientset ns secret m.world).2) ∧
    (callsOf (k.GetServiceAccount api ns name m).2.trace =
        callsOf m.trace ++ [.ServiceAccountsGet k.Clientset ns name] ∧
      (k.GetServiceAccount api ns name m).2.world =
        (api.ServiceAccountsGet k.Clientset ns name m.world).2) ∧
    (callsOf (k.UpdateServiceAccount api ns sa m).2.trace =
        callsOf m.trace ++ [.ServiceAccountsUpdate k.Clientset ns sa] ∧
      (k.UpdateServiceAccount api ns sa m).2.world =
        (api.ServiceAccountsUpdate k.Clientset ns sa m.world).2) := by
  refine ⟨?_, ?_, ?_, ?_, ?_, ?_⟩
  · cases h : (api.NamespacesList k.Clientset v1.ListOptions.zero m.world).1.2 <;>
      simp [kubeImpl.GetNamespaces, invoke, emit, h, callsOf]
  · cases h : (api.SecretsGet k.Clientset ns name m.world).1.2 <;>
      simp [kubeImpl.GetSecret, invoke, emit, h, callsOf]
  · cases h : (api.SecretsCreate k.Clientset ns secret m.world).1.2 <;>
      simp [kubeImpl.CreateSecret, invoke, emit, h, callsOf]
  · cases h : (api.SecretsUpdate k.Clientset ns secret m.world).1.2 <;>
      simp [kubeImpl.UpdateSecret, invoke, emit, h, callsOf]
  · cases h : (api.ServiceAccountsGet k.Clientset ns name m.world).1.2 <;>
      simp [kubeImpl.GetServiceAccount, invoke, emit, h, callsOf]
  · cases h : (api.ServiceAccountsUpdate k.Clientset ns sa m.world).1.2 <;>
      simp [kubeImpl.UpdateServiceAccount, invoke, emit, h, callsOf]

/-- C9 at a failing and a succeeding call: `UpdateSecret` of an absent secret records the
one `Update` call and no other; `CreateSecret` records the one `Create` call. -/
theorem one_call_examples :
    callsOf (testAccessor.UpdateSecret Cluster.api "ns1" (some secretS1)
      (Machine.start emptyCluster)).2.trace =
      [ClientCall.SecretsUpdate (some ⟨"https://10.0.0.1:6443"⟩) "ns1" (some secretS1)] ∧
    callsOf (testAccessor.CreateSecret Cluster.api "ns1" (some secretS1)
      (Machine.start emptyCluster)).2.trace =
      callsOf (Machine.start (ε := StatusError) emptyCluster).trace ++
        [ClientCall.SecretsCreate testAccessor.Clientset "ns1" (some secretS1)] :=
  ⟨by decide,
    (operations_issue_one_call Cluster.api testAccessor "ns1" "s1" (some secretS1) none
      (Machine.start emptyCluster)).2.2.1.1⟩

/-- C10: when the client call of `GetNamespaces`, `GetSecret` or `GetServiceAccount`
returns a non-nil error, the operation returns a nil object, whatever object the client
returned with the error; so a non-nil returned object comes with a nil error. -/
theorem getters_drop_object_on_error {σ ε : Type} (api : Api σ ε) (k : kubeImpl)
    (ns name : String) (m : Machine σ ε) :
    (((api.NamespacesList k.Clientset v1.ListOptions.zero m.world).1.2 ≠ none →
        (k.GetNamespaces api m).1.1 = none) ∧
      ((k.GetNamespaces api m).1.1 ≠ none → (k.GetNamespaces api m).1.2 = none)) ∧
    (((api.SecretsGet k.Clientset ns name m.world).1.2 ≠ none →
        (k.GetSecret api ns name m).1.1 = none) ∧
      ((k.GetSecret api ns name m).1.1 ≠ none → (k.GetSecret api ns name m).1.2 = none)) ∧
    (((api.ServiceAccountsGet k.Clientset ns name m.world).1.2 ≠ none →
        (k.GetServiceAccount api ns name m).1.1 = none) ∧
      ((k.GetServiceAccount api ns name m).1.1 ≠ none →
        (k.GetServiceAccount api ns name m).1.2 = none)) := by
  refine ⟨?_, ?_, ?_⟩
  · cases h : (api.NamespacesList k.Clientset v1.ListOptions.zero m.world).1.2 <;>
      simp [kubeImpl.GetNamespaces, invoke, h]
  · cases h : (api.SecretsGet k.Clientset ns name m.world).1.2 <;>
      simp [kubeImpl.GetSecret, invoke, h]
  · cases h : (api.ServiceAccountsGet k.Clientset ns name m.world).1.2 <;>
      simp [kubeImpl.GetServiceAccount, invoke, h]

/-- C10 at an absent secret: the client hands back an empty object with its not-found
error, and `GetSecret` returns a nil object with that error. -/
theorem absent_secret_object_dropped :
    (Cluster.api.SecretsGet testAccessor.Clientset "ns1" "s1" emptyCluster).1 =
      (some v1.Secret.zero, some ⟨.NotFound, "ns1", "s1"⟩) ∧
    (testAccessor.GetSecret Cluster.api "ns1" "s1" (Machine.start emptyCluster)).1.2 =
      some ⟨.NotFound, "ns1", "s1"⟩ ∧
    (testAccessor.GetSecret Cluster.api "ns1" "s1" (Machine.start emptyCluster)).1.1 = none :=
  ⟨by decide, by decide,
    (getters_drop_object_on_error Cluster.api testAccessor "ns1" "s1"
      (Machine.start emptyCluster)).2.1.1 (by decide)⟩

/-! ## Construction -/

/-- C1: `New p` consults exactly one credential strategy. For the empty path its library
calls are the in-cluster loader, then the client constructor on that loader's config when
the loader succeeded, and never the file loader. For a non-empty path they are the file
loader with master URL `""` and path `p`, then the client constructor on that loader's
config when the loader succeeded, and never the in-cluster loader. In both cases a returned
accessor stores the client handle the constructor built from that config. -/
theorem New_consults_one_strategy {σ ε : Type} (lib : Bootstrap σ ε) (p : String)
    (m : Machine σ ε) :
    (p = "" →
      callsDuring m.trace (New lib p m).2.trace =
        ClientCall.InClusterConfig ::
          (match (lib.InClusterConfig m.world).1.2 with
            | none => [ClientCall.NewForConfig (lib.InClusterConfig m.world).1.1]
            | some _ => []) ∧
      (∀ u f, ClientCall.BuildConfigFromFlags u f ∉
        callsDuring m.trace (New lib p m).2.trace) ∧
      (∀ k, (New lib p m).1.1 = some k →
        k.Clientset = (lib.NewForConfig (lib.InClusterConfig m.world).1.1
          (lib.InClusterConfig m.world).2).1.1)) ∧
    (p ≠ "" →
      callsDuring m.trace (New lib p m).2.trace =
        ClientCall.BuildConfigFromFlags "" p ::
          (match (lib.BuildConfigFromFlags "" p m.world).1.2 with
            | none => [ClientCall.NewForConfig (lib.BuildConfigFromFlags "" p m.world).1.1]
            | some _ => []) ∧
      ClientCall.InClusterConfig ∉ callsDuring m.trace (New lib p m).2.trace ∧
      (∀ k, (New lib p m).1.1 = some k →
        k.Clientset = (lib.NewForConfig (lib.BuildConfigFromFlags "" p m.world).1.1
          (lib.BuildConfigFromFlags "" p m.world).2).1.1)) := by
  constructor
  · rintro rfl
    cases h : (lib.InClusterConfig m.world).1.2 with
    | some e => simp [New, String.utf8ByteSize, String.utf8ByteSize.go, invoke, emit, h,
        callsDuring, callsOf]
    | none =>
      cases h2 : (lib.NewForConfig (lib.InClusterConfig m.world).1.1
          (lib.InClusterConfig m.world).2).1.2 with
      | some e => simp [New, String.utf8ByteSize, String.utf8ByteSize.go, invoke, emit, h, h2,
          callsDuring, callsOf]
      | none =>
        simp [New, String.utf8ByteSize, String.utf8ByteSize.go, invoke, emit, h, h2,
          callsDuring, callsOf]
  · intro hp
    have hlen : p.utf8ByteSize ≠ 0 := fun h0 => hp ((utf8ByteSize_eq_zero_iff p).1 h0)
    cases h : (lib.BuildConfigFromFlags "" p m.world).1.2 with
    | some e => simp [New, hlen, invoke, emit, h, callsDuring, callsOf]
    | none =>
      cases h2 : (lib.NewForConfig (lib.BuildConfigFromFlags "" p m.world).1.1
          (lib.BuildConfigFromFlags "" p m.world).2).1.2 with
      | some e => simp [New, hlen, invoke, emit, h, h2, callsDuring, callsOf]
      | none =>
        simp [New, hlen, invoke, emit, h, h2, callsDuring, callsOf]

/-- C1 at three runs. Outside a cluster with the empty path only the in-cluster loader is
called. Outside a cluster with `/etc/kube/config` the file loader and then the constructor
are called, never the in-cluster loader, and the accessor holds the client set built from
the file's config. Inside a cluster with the empty path the in-cluster loader and then the
constructor are called, and the accessor holds the client set built from the ambient
config. -/
theorem New_strategy_examples :
    callsDuring [] (New outsideCluster "" (Machine.start ())).2.trace =
      [ClientCall.InClusterConfig] ∧
    callsDuring [] (New outsideCluster "/etc/kube/config" (Machine.start ())).2.trace =
      [ClientCall.BuildConfigFromFlags "" "/etc/kube/config",
        ClientCall.NewForConfig (some ⟨"https://10.0.0.1:6443", "t0k3n"⟩)] ∧
    (New outsideCluster "/etc/kube/config" (Machine.start ())).1 =
      (some { Clientset := some ⟨"https://10.0.0.1:6443"⟩ }, none) ∧
    callsDuring [] (New insideCluster "" (Machine.start ())).2.trace =
      [ClientCall.InClusterConfig,
        ClientCall.NewForConfig (some ⟨"https://kubernetes.default.svc", "sa-token"⟩)] ∧
    (New insideCluster "" (Machine.start ())).1 =
      (some { Clientset := some ⟨"https://kubernetes.default.svc"⟩ }, none) ∧
    ClientCall.InClusterConfig ∉
      callsDuring [] (New outsideCluster "/etc/kube/config" (Machine.start ())).2.trace :=
  ⟨by decide, by decide, by decide, by decide, by decide,
    ((New_consults_one_strategy outsideCluster "/etc/kube/config" (Machine.start ())).2
      (by decide)).2.1⟩

/-- C2: whatever the path, an error of the selected loader, or of the client constructor
run on the loader's config, is returned as it is next to a nil accessor; and `New` returns
a non-nil accessor exactly when both succeed, then with a nil error. -/
theorem New_error_propagation {σ ε : Type} (lib : Bootstrap σ ε) (p : String)
    (m : Machine σ ε) :
    (∀ e, (selectedLoader lib p m.world).1.2 = some e → (New lib p m).1 = (none, some e)) ∧
    (∀ e, (selectedLoader lib p m.world).1.2 = none →
      (lib.NewForConfig (selectedLoader lib p m.world).1.1
        (selectedLoader lib p m.world).2).1.2 = some e →
      (New lib p m).1 = (none, some e)) ∧
    ((New lib p m).1.1 ≠ none ↔
      (selectedLoader lib p m.world).1.2 = none ∧
      (lib.NewForConfig (selectedLoader lib p m.world).1.1
        (selectedLoader lib p m.world).2).1.2 = none) ∧
    ((New lib p m).1.1 ≠ none → (New lib p m).1.2 = none) := by
  by_cases hp : p = ""
  · subst hp
    cases h : (lib.InClusterConfig m.world).1.2 with
    | some e => simp [New, selectedLoader, String.utf8ByteSize, String.utf8ByteSize.go, invoke,
        emit, h]
    | none =>
      cases h2 : (lib.NewForConfig (lib.InClusterConfig m.world).1.1
          (lib.InClusterConfig m.world).2).1.2 <;>
        simp [New, selectedLoader, String.utf8ByteSize, String.utf8ByteSize.go, invoke, emit,
          h, h2]
  · have hlen : p.utf8ByteSize ≠ 0 := fun h0 => hp ((utf8ByteSize_eq_zero_iff p).1 h0)
    cases h : (lib.BuildConfigFromFlags "" p m.world).1.2 with
    | some e => simp [New, selectedLoader, hp, hlen, invoke, emit, h]
    | none =>
      cases h2 : (lib.NewForConfig (lib.BuildConfigFromFlags "" p m.world).1.1
          (lib.BuildConfigFromFlags "" p m.world).2).1.2 <;>
        simp [New, selectedLoader, hp, hlen, invoke, emit, h, h2]

/-- C2 outside a cluster: with the empty path the in-cluster loader fails, and `New`
returns that error and no accessor. -/
theorem New_fails_outside_cluster :
    (New outsideCluster "" (Machine.start ())).1 =
      (none, some "unable to load in-cluster configuration") :=
  (New_error_propagation outsideCluster "" (Machine.start ())).1
    "unable to load in-cluster configuration" (by decide)

/-- C5, as amended: `New p` first writes one informational entry naming the strategy,
in-cluster for the empty path and out-of-cluster with `p` otherwise. For the empty path it
writes nothing else. For a non-empty path it writes nothing else unless the file loader
fails, and then one error entry carrying the loader's error follows. -/
theorem New_log_entries {σ ε : Type} (lib : Bootstrap σ ε) (p : String) (m : Machine σ ε) :
    (p = "" →
      logsDuring m.trace (New lib p m).2.trace =
        [LogCall.Info [LogArg.str "Using InCluster k8s config"]]) ∧
    (p ≠ "" →
      logsDuring m.trace (New lib p m).2.trace =
        LogCall.Infof "Using OutOfCluster k8s config with kubeConfigFile: %s" [LogArg.str p] ::
          (match (lib.BuildConfigFromFlags "" p m.world).1.2 with
            | none => []
            | some e =>
              [LogCall.Error [LogArg.str "Got error trying to create client: ", LogArg.err e]]))
    := by
  constructor
  · rintro rfl
    cases h : (lib.InClusterConfig m.world).1.2 with
    | some e => simp [New, String.utf8ByteSize, String.utf8ByteSize.go, invoke, emit, h,
        logsDuring, logsOf]
    | none =>
      cases h2 : (lib.NewForConfig (lib.InClusterConfig m.world).1.1
          (lib.InClusterConfig m.world).2).1.2 <;>
        simp [New, String.utf8ByteSize, String.utf8ByteSize.go, invoke, emit, h, h2,
          logsDuring, logsOf]
  · intro hp
    have hlen : p.utf8ByteSize ≠ 0 := fun h0 => hp ((utf8ByteSize_eq_zero_iff p).1 h0)
    cases h : (lib.BuildConfigFromFlags "" p m.world).1.2 with
    | some e => simp [New, hlen, invoke, emit, h, logsDuring, logsOf]
    | none =>
      cases h2 : (lib.NewForConfig (lib.BuildConfigFromFlags "" p m.world).1.1
          (lib.BuildConfigFromFlags "" p m.world).2).1.2 <;>
        simp [New, hlen, invoke, emit, h, h2, logsDuring, logsOf]

/-- C5 fails as stated: outside a cluster, `New` on the unreadable path `/nope` writes two
log entries, the informational one and an error entry, so it does not write exactly one
entry. -/
theorem New_logs_twice_on_unreadable_file :
    ¬ LogsOneInfoEntry outsideCluster "/nope" (Machine.start ()) := by
  rintro ⟨entry, h, -⟩
  have hlogs : logsDuring (Machine.start (σ := Unit) (ε := String) ()).trace
      (New outsideCluster "/nope" (Machine.start ())).2.trace =
      [LogCall.Infof "Using OutOfCluster k8s config with kubeConfigFile: %s"
          [LogArg.str "/nope"],
        LogCall.Error [LogArg.str "Got error trying to create client: ",
          LogArg.err "stat /nope: no such file or directory"]] := by
    decide
  rw [hlogs] at h
  simp at h

/-! ## The operations over the reference cluster -/

/-- C6: over the reference cluster, for a secret `s` whose key `(ns, s.Name)` is absent,
`CreateSecret ns s` returns nil and the `GetSecret ns s.Name` that follows returns no
error and a secret with the data of `s`. -/
theorem create_then_get_round_trip (k : kubeImpl) (ns : String) (s : v1.Secret)
    (m : Machine Cluster StatusError)
    (habsent : m.world.secrets.lookup (ns, s.ObjectMeta.Name) = none) :
    (k.CreateSecret Cluster.api ns (some s) m).1 = none ∧
    ∃ got : v1.Secret,
      (k.GetSecret Cluster.api ns s.ObjectMeta.Name
        (k.CreateSecret Cluster.api ns (some s) m).2).1 = (some got, none) ∧
      got.Data = s.Data := by
  refine ⟨?_, s, ?_, rfl⟩
  · simp [kubeImpl.CreateSecret, invoke, Cluster.api, habsent]
  · simp [kubeImpl.CreateSecret, kubeImpl.GetSecret, invoke, Cluster.api, habsent,
      List.lookup]

/-- C6 at the scenario of the specification: creating `s1` with data `k ↦ v` in `ns1` of
an empty cluster and reading it back yields data `k ↦ v`. -/
theorem create_then_get_s1 :
    emptyCluster.secrets.lookup ("ns1", secretS1.ObjectMeta.Name) = none ∧
    (testAccessor.CreateSecret Cluster.api "ns1" (some secretS1)
      (Machine.start emptyCluster)).1 = none ∧
    ∃ got : v1.Secret,
      (testAccessor.GetSecret Cluster.api "ns1" "s1"
        (testAccessor.CreateSecret Cluster.api "ns1" (some secretS1)
          (Machine.start emptyCluster)).2).1 = (some got, none) ∧
      got.Data = [("k", "v")] :=
  ⟨by decide,
    create_then_get_round_trip testAccessor "ns1" secretS1 (Machine.start emptyCluster)
      (by decide)⟩

/-- C7: over the reference cluster, for a secret `s` whose key `(ns, s.Name)` is absent,
`UpdateSecret ns s` returns a not-found error, makes no `Create` call, leaves the store as
it was, and the `GetSecret ns s.Name` that follows still fails with not-found. -/
theorem update_absent_is_not_found (k : kubeImpl) (ns : String) (s : v1.Secret)
    (m : Machine Cluster StatusError)
    (habsent : m.world.secrets.lookup (ns, s.ObjectMeta.Name) = none) :
    (∃ e : StatusError, (k.UpdateSecret Cluster.api ns (some s) m).1 = some e ∧
      e.Reason = StatusReason.NotFound) ∧
    (∀ cs n x, ClientCall.SecretsCreate cs n x ∉
      callsDuring m.trace (k.UpdateSecret Cluster.api ns (some s) m).2.trace) ∧
    (k.UpdateSecret Cluster.api ns (some s) m).2.world = m.world ∧
    (∃ e : StatusError,
      (k.GetSecret Cluster.api ns s.ObjectMeta.Name
        (k.UpdateSecret Cluster.api ns (some s) m).2).1 = (none, some e) ∧
      e.Reason = StatusReason.NotFound) := by
  refine ⟨⟨⟨.NotFound, ns, s.ObjectMeta.Name⟩, ?_, rfl⟩, ?_, ?_,
    ⟨⟨.NotFound, ns, s.ObjectMeta.Name⟩, ?_, rfl⟩⟩
  · simp [kubeImpl.UpdateSecret, invoke, Cluster.api, habsent]
  · simp [kubeImpl.UpdateSecret, invoke, emit, Cluster.api, habsent, callsDuring, callsOf]
  · simp [kubeImpl.UpdateSecret, invoke, emit, Cluster.api, habsent]
  · simp [kubeImpl.UpdateSecret, kubeImpl.GetSecret, invoke, emit, Cluster.api, habsent]

/-- C7 at the empty cluster: updating `s1` in `ns1` fails with not-found, calls only
`Update`, and leaves the cluster empty. -/
theorem update_absent_s1 :
    (testAccessor.UpdateSecret Cluster.api "ns1" (some secretS1)
      (Machine.start emptyCluster)).1 = some ⟨.NotFound, "ns1", "s1"⟩ ∧
    callsDuring [] (testAccessor.UpdateSecret Cluster.api "ns1" (some secretS1)
      (Machine.start emptyCluster)).2.trace =
      [ClientCall.SecretsUpdate testAccessor.Clientset "ns1" (some secretS1)] ∧
    (testAccessor.UpdateSecret Cluster.api "ns1" (some secretS1)
      (Machine.start emptyCluster)).2.world = emptyCluster :=
  ⟨by decide, by decide,
    (update_absent_is_not_found testAccessor "ns1" secretS1 (Machine.start emptyCluster)
      (by decide)).2.2.1⟩

end k8sutil
